import Mathlib

/-!
Shallow embedding of the StudiumDashboard core (grade/credit aggregation and
persistence-consistency engine) and proofs about it.

Conventions of the embedding:
* Python `float` grade/weight arithmetic is modelled over `Rat`.
* Calendar dates are opaque tokens (`Date := Nat`); `date.isoformat` /
  `date.fromisoformat` form a bijection and are modelled as the identity.
* Python's in-place mutation is modelled by explicit state passing; a method
  that may `raise` returns a pair of the (possibly unchanged) object and an
  optional error message.
* Dynamically typed arguments (a caller may pass a value of the wrong class)
  are modelled by the wrapper `PyValue`: either a value of the expected type
  or some other Python value.
* `uuid.uuid4()` is modelled as an external supply of identifier strings.
-/

abbrev Date := Nat

/-- A Python value passed to a dynamically typed parameter: either a value of
the expected class `α`, or a value of any other class. -/
inductive PyValue (α : Type) where
  | typed (a : α)
  | other
deriving Repr, DecidableEq

/-- models/note.py `Note`: a scored assessment result with a weight. -/
structure Note where
  typ : String
  wert : Rat
  gewichtung : Rat
  datum : Date
  kommentar : String
  punkte : Int
deriving Repr, DecidableEq

/-- `Note.get_gewichtete_note`: `self.wert * self.gewichtung`. -/
def Note.get_gewichtete_note (n : Note) : Rat :=
  n.wert * n.gewichtung

/-- `Note.is_passed(grenze=4.0)`: `self.wert <= grenze`.  The Python default
threshold `4.0` is passed explicitly at call sites. -/
def Note.is_passed (n : Note) (grenze : Rat) : Bool :=
  decide (n.wert ≤ grenze)

/-- models/pruefungsleistung.py `Pruefungsleistung`: one assessment instance,
holding at most one `Note` and a derived `bestanden` flag. -/
structure Pruefungsleistung where
  id : String
  art : String
  datum : Option Date
  beschreibung : String
  deadline : Option Date
  versuche : Int
  anmerkung : String
  note : Option Note
  bestanden : Bool
  modul_id : Option String
deriving Repr, DecidableEq

/-- `Pruefungsleistung.__init__`: fresh id, `datum or date.today()`,
`note = None`, `bestanden = False`, `modul_id = None`. -/
def Pruefungsleistung.mkNew (id art : String) (datum : Option Date)
    (beschreibung : String) (deadline : Option Date) (versuche : Int)
    (anmerkung : String) (today : Date) : Pruefungsleistung :=
  { id := id
    art := art
    datum := some (datum.getD today)
    beschreibung := beschreibung
    deadline := deadline
    versuche := versuche
    anmerkung := anmerkung
    note := none
    bestanden := false
    modul_id := none }

/-- `Pruefungsleistung.set_note(note)`: raises `TypeError` when the argument is
not a `Note` (object unchanged), otherwise stores the note and recomputes
`bestanden = note.is_passed()`. -/
def Pruefungsleistung.set_note (pl : Pruefungsleistung) (arg : PyValue Note) :
    Pruefungsleistung × Option String :=
  match arg with
  | .other => (pl, some "TypeError: note muss vom Typ Note sein")
  | .typed n => ({ pl with note := some n, bestanden := n.is_passed 4 }, none)

/-- `Pruefungsleistung.is_passed`: returns the stored `bestanden` flag. -/
def Pruefungsleistung.is_passed_flag (pl : Pruefungsleistung) : Bool :=
  pl.bestanden

/-- models/modul.py `Modul`: a credit-bearing course unit. -/
structure Modul where
  id : String
  modulName : String
  modulID : String
  beschreibung : String
  ects : Int
  semesterZuordnung : Int
  pruefungsleistungen : List Pruefungsleistung
  required_for_completion : List String
deriving Repr, DecidableEq

/-- models/student.py `Student` (with the inherited `Person` and `BaseModel`
fields inlined). -/
structure Student where
  id : String
  vorname : String
  nachname : String
  geburtsdatum : Date
  email : String
  matrikelNr : String
  immatrikulationsdatum : Date
  zielNotendurchschnitt : Rat
  absolvierteECTS : Int
  fokus : String
  aktuelleSemesterZahl : Int
  pruefungsleistungen : List Pruefungsleistung
  bestandene_module_ids : Finset String
deriving DecidableEq

/-- `Modul.is_complete_for_student(student)`: no records → `False`; with a
non-empty `required_for_completion` list and at least one record of a required
kind, all records of required kind must be `bestanden`; otherwise at least one
record must be `bestanden`.  The `student` argument is unused by the source. -/
def Modul.is_complete_for_student (m : Modul) (_student : Option Student) : Bool :=
  if m.pruefungsleistungen.isEmpty then
    false
  else if !m.required_for_completion.isEmpty then
    let required_exams :=
      m.pruefungsleistungen.filter (fun pl => m.required_for_completion.contains pl.art)
    if required_exams.isEmpty then
      m.pruefungsleistungen.any (·.bestanden)
    else
      required_exams.all (·.bestanden)
  else
    m.pruefungsleistungen.any (·.bestanden)

/-- `Modul.add_pruefungsleistung(pruefung)`: `TypeError` on a non-record
argument, otherwise sets `pruefung.modul_id = self.id` and appends. -/
def Modul.add_pruefungsleistung (m : Modul) (arg : PyValue Pruefungsleistung) :
    Modul × Option String :=
  match arg with
  | .other => (m, some "TypeError: pruefung muss vom Typ Pruefungsleistung sein")
  | .typed pl =>
      ({ m with pruefungsleistungen :=
          m.pruefungsleistungen ++ [{ pl with modul_id := some m.id }] }, none)

/-- `Student.get_durchschnittnote`: weighted average over the records of the
ledger that are `bestanden` and carry a note; `0.0` when there are none or
when the total weight is `0`. -/
def Student.get_durchschnittnote (st : Student) : Rat :=
  let passed_exams :=
    st.pruefungsleistungen.filter (fun pl => pl.bestanden && pl.note.isSome)
  if passed_exams.isEmpty then 0
  else
    let total_weight :=
      ((passed_exams.filterMap (·.note)).map (·.gewichtung)).sum
    if total_weight = 0 then 0
    else
      let weighted_sum :=
        ((passed_exams.filterMap (·.note)).map Note.get_gewichtete_note).sum
      weighted_sum / total_weight

/-- `Student.add_pruefungsleistung(pruefung)`: `TypeError` on a non-record
argument, otherwise appends to the ledger. -/
def Student.add_pruefungsleistung (st : Student) (arg : PyValue Pruefungsleistung) :
    Student × Option String :=
  match arg with
  | .other => (st, some "TypeError: pruefung muss vom Typ Pruefungsleistung sein")
  | .typed pl =>
      ({ st with pruefungsleistungen := st.pruefungsleistungen ++ [pl] }, none)

/-- `Student.update_ects_for_modul(modul, bestanden)`: the single point of
truth for credit accounting.  `if not modul: return` is the `none` case. -/
def Student.update_ects_for_modul (st : Student) (modul : Option Modul)
    (bestanden : Bool) : Student :=
  match modul with
  | none => st
  | some m =>
      if bestanden then
        if m.id ∈ st.bestandene_module_ids then st
        else
          { st with
              bestandene_module_ids := insert m.id st.bestandene_module_ids
              absolvierteECTS := st.absolvierteECTS + m.ects }
      else
        if m.id ∈ st.bestandene_module_ids then
          { st with
              bestandene_module_ids := st.bestandene_module_ids.erase m.id
              absolvierteECTS := st.absolvierteECTS - m.ects }
        else st

/-- `Student.hat_modul_bestanden(modul)`: membership in the completed-ids set,
else delegation to `Modul.is_complete_for_student`. -/
def Student.hat_modul_bestanden (st : Student) (m : Modul) : Bool :=
  if m.id ∈ st.bestandene_module_ids then true
  else m.is_complete_for_student (some st)

/-- models/semester.py `Semester`.  The `module` list is typed here; the
dynamically typed behaviour of `add_modul` is modelled separately below. -/
structure Semester where
  nummer : Int
  startDatum : Option Date
  endDatum : Option Date
  recommendedECTS : Int
  status : String
  aktiv : Bool
  module : List Modul
deriving Repr, DecidableEq

/-- `Semester.__init__(nummer)` with all defaults. -/
def Semester.mkNew (nummer : Int) : Semester :=
  { nummer := nummer
    startDatum := none
    endDatum := none
    recommendedECTS := 30
    status := "geplant"
    aktiv := false
    module := [] }

/-- `Semester.add_modul(modul)` on the typed view: the body is exactly
`self.module.append(modul)`. -/
def Semester.add_modul (sem : Semester) (m : Modul) : Semester :=
  { sem with module := sem.module ++ [m] }

/-- `Semester.add_modul(modul)` as Python executes it: the `module` list is an
untyped Python list, the method appends whatever value it is given and raises
nothing (there is no `isinstance` check in the source).  Returned alongside is
the raised error, which is always `none`. -/
def Semester.add_modul_dyn (module : List (PyValue Modul)) (arg : PyValue Modul) :
    List (PyValue Modul) × Option String :=
  (module ++ [arg], none)

/-- models/studiengang.py `Studiengang`. -/
structure Studiengang where
  id : String
  name : String
  gesamtECTS : Int
  semester : List Semester
deriving Repr, DecidableEq

/-- `Studiengang.get_all_module`: concatenation of all semesters' modules in
insertion order. -/
def Studiengang.get_all_module (sg : Studiengang) : List Modul :=
  sg.semester.foldl (fun acc sem => acc ++ sem.module) []

/-- `Studiengang.get_semester(nummer)`: first semester with that number. -/
def Studiengang.get_semester (sg : Studiengang) (nummer : Int) : Option Semester :=
  sg.semester.find? (fun sem => sem.nummer = nummer)

/-- `Studiengang.add_semester(semester)`: type-checked append. -/
def Studiengang.add_semester (sg : Studiengang) (arg : PyValue Semester) :
    Studiengang × Option String :=
  match arg with
  | .other => (sg, some "TypeError: semester muss vom Typ Semester sein")
  | .typed sem => ({ sg with semester := sg.semester ++ [sem] }, none)

/-- controllers/dashboard.py `Dashboard._aktualisiere_bestandene_module`: the
full recompute — clears the completed-ids set, zeroes the credit counter and
re-evaluates every module of the program. -/
def aktualisiere_bestandene_module (sg : Studiengang) (st : Student) : Student :=
  let st0 := { st with bestandene_module_ids := ∅, absolvierteECTS := 0 }
  sg.get_all_module.foldl
    (fun s m =>
      if m.is_complete_for_student (some s) then
        { s with
            bestandene_module_ids := insert m.id s.bestandene_module_ids
            absolvierteECTS := s.absolvierteECTS + m.ects }
      else s)
    st0

/-- The cross-entity invariant of the spec: `absolvierteECTS` equals the sum of
`ects` over exactly the modules of `mods` whose id is in
`bestandene_module_ids`. -/
def ects_invariant (mods : List Modul) (st : Student) : Prop :=
  st.absolvierteECTS =
    ((mods.filter (fun m => m.id ∈ st.bestandene_module_ids)).map Modul.ects).sum

instance (mods : List Modul) (st : Student) : Decidable (ects_invariant mods st) := by
  unfold ects_invariant; infer_instance

/-! ## Serialization (`to_dict` / `from_dict`)

The dictionaries produced by `to_dict` are modelled as structures holding
exactly the keys the source writes (every key is always written, so the
`data.get(key, default)` fallbacks of `from_dict` never fire for a dict that
came from `to_dict`).  Date values pass through `isoformat`/`fromisoformat`,
a bijection modelled as the identity on `Date`. -/

/-- The dict written by `Note.to_dict`. -/
structure NoteDict where
  typ : String
  wert : Rat
  gewichtung : Rat
  datum : Date
  kommentar : String
  punkte : Int
deriving Repr, DecidableEq

/-- `Note.to_dict`. -/
def Note.to_dict (n : Note) : NoteDict :=
  ⟨n.typ, n.wert, n.gewichtung, n.datum, n.kommentar, n.punkte⟩

/-- `Note.from_dict`. -/
def Note.from_dict (d : NoteDict) : Note :=
  ⟨d.typ, d.wert, d.gewichtung, d.datum, d.kommentar, d.punkte⟩

/-- The dict written by `Pruefungsleistung.to_dict`. -/
structure PruefungsleistungDict where
  id : String
  art : String
  datum : Option Date
  beschreibung : String
  deadline : Option Date
  versuche : Int
  anmerkung : String
  note : Option NoteDict
  bestanden : Bool
  modul_id : Option String
deriving Repr, DecidableEq

/-- `Pruefungsleistung.to_dict`. -/
def Pruefungsleistung.to_dict (pl : Pruefungsleistung) : PruefungsleistungDict :=
  { id := pl.id
    art := pl.art
    datum := pl.datum
    beschreibung := pl.beschreibung
    deadline := pl.deadline
    versuche := pl.versuche
    anmerkung := pl.anmerkung
    note := pl.note.map Note.to_dict
    bestanden := pl.bestanden
    modul_id := pl.modul_id }

/-- `Pruefungsleistung.from_dict`: note that `bestanden` is restored only
inside the `if data.get("note"):` branch; with no note the flag keeps the
constructor value `False`. -/
def Pruefungsleistung.from_dict (d : PruefungsleistungDict) : Pruefungsleistung :=
  { id := d.id
    art := d.art
    datum := d.datum
    beschreibung := d.beschreibung
    deadline := d.deadline
    versuche := d.versuche
    anmerkung := d.anmerkung
    note := d.note.map Note.from_dict
    bestanden := match d.note with
      | some _ => d.bestanden
      | none => false
    modul_id := d.modul_id }

/-- The dict written by `Student.to_dict` (with the `Person`/`BaseModel` keys
inlined); `_bestandene_module_ids` is written as `list(set)`, whose arbitrary
iteration order is modelled canonically as the sorted enumeration. -/
structure StudentDict where
  id : String
  vorname : String
  nachname : String
  geburtsdatum : Date
  email : String
  matrikelNr : String
  immatrikulationsdatum : Date
  zielNotendurchschnitt : Rat
  absolvierteECTS : Int
  fokus : String
  aktuelleSemesterZahl : Int
  pruefungsleistungen : List PruefungsleistungDict
  bestandene_module_ids : List String
deriving DecidableEq

/-- `Student.to_dict`. -/
def Student.to_dict (st : Student) : StudentDict :=
  { id := st.id
    vorname := st.vorname
    nachname := st.nachname
    geburtsdatum := st.geburtsdatum
    email := st.email
    matrikelNr := st.matrikelNr
    immatrikulationsdatum := st.immatrikulationsdatum
    zielNotendurchschnitt := st.zielNotendurchschnitt
    absolvierteECTS := st.absolvierteECTS
    fokus := st.fokus
    aktuelleSemesterZahl := st.aktuelleSemesterZahl
    pruefungsleistungen := st.pruefungsleistungen.map Pruefungsleistung.to_dict
    bestandene_module_ids := st.bestandene_module_ids.sort (· ≤ ·) }

/-- `Student.from_dict`: every field of the temporary constructor call is
overwritten from the dict; `set(data.get("_bestandene_module_ids", []))`. -/
def Student.from_dict (d : StudentDict) : Student :=
  { id := d.id
    vorname := d.vorname
    nachname := d.nachname
    geburtsdatum := d.geburtsdatum
    email := d.email
    matrikelNr := d.matrikelNr
    immatrikulationsdatum := d.immatrikulationsdatum
    zielNotendurchschnitt := d.zielNotendurchschnitt
    absolvierteECTS := d.absolvierteECTS
    fokus := d.fokus
    aktuelleSemesterZahl := d.aktuelleSemesterZahl
    pruefungsleistungen := d.pruefungsleistungen.map Pruefungsleistung.from_dict
    bestandene_module_ids := d.bestandene_module_ids.toFinset }

/-! ## CSV import (controllers/datenmanager.py `DatenManager.import_csv`)

A CSV cell is abstracted by how the source consumes it: a field that must
parse (date, grade, weight) is either absent/sentinel, present but
unparseable, or carries its parsed value.  The weight field additionally
distinguishes a present-but-empty cell: `validate_csv_row` skips it (the
value is falsy) but `float(row.get("Gewichtung", 1.0))` later raises
`ValueError` on it, which the per-row handler counts as an error. -/

/-- A parseable CSV field: absent (missing key, empty or the `N/A` sentinel),
present but not parseable, or carrying its parsed value. -/
inductive FieldVal (α : Type) where
  | missing
  | invalid
  | valid (a : α)
deriving Repr, DecidableEq

/-- The `Gewichtung` cell: missing key, present-but-empty (falsy, skips
validation, fails `float`), present unparseable, or parsed. -/
inductive GewVal where
  | missing
  | empty
  | invalid
  | valid (g : Rat)
deriving Repr, DecidableEq

/-- One data row of the import CSV (string cells kept as strings; `""` is the
falsy/absent value for `Modul_ID` and `Modul_Name`). -/
structure CsvRow where
  modul_id : String
  modul_name : String
  pruefungsart : String
  datum : FieldVal Date
  beschreibung : String
  note : FieldVal Rat
  gewichtung : GewVal
deriving Repr, DecidableEq

/-- `DatenManager.validate_csv_row`: the list of validation issues of a row
(messages abbreviated; only emptiness and count are consumed). -/
def validate_csv_row (row : CsvRow) : List String :=
  (if row.pruefungsart = "" then ["Prüfungsart fehlt oder ist leer"] else []) ++
  (match row.datum with
    | .invalid => ["Ungültiges Datumsformat"]
    | _ => []) ++
  (match row.note with
    | .invalid => ["Ungültiger Notenwert"]
    | .valid v =>
        if v < 1 ∨ v > 5 then ["Notenwert außerhalb des gültigen Bereichs"] else []
    | .missing => []) ++
  (match row.gewichtung with
    | .invalid => ["Ungültige Gewichtung"]
    | .valid g => if g ≤ 0 then ["Gewichtung muss größer als 0 sein"] else []
    | _ => [])

/-- `float(row.get("Gewichtung", 1.0))` inside the note branch: missing key
defaults to `1.0`; an empty or unparseable cell raises (`none`). -/
def GewVal.toFloat : GewVal → Option Rat
  | .missing => some 1
  | .empty => none
  | .invalid => none
  | .valid g => some g

/-- The string-keyed lookup dictionaries of `import_csv`, mapping a key to the
internal id of a module.  `mapSet` overwrites like a Python dict store. -/
def mapSet (k v : String) (m : List (String × String)) : List (String × String) :=
  (k, v) :: m

/-- Python `d[k]` / `k in d` on the model: the most recently stored binding. -/
def mapGet (k : String) (m : List (String × String)) : Option String :=
  (m.find? (fun p => p.1 = k)).map (·.2)

/-- The dict comprehension building a lookup dictionary from all modules
(later modules overwrite earlier ones with the same key). -/
def buildMap (f : Modul → String) (sg : Studiengang) : List (String × String) :=
  sg.get_all_module.foldl (fun acc m => mapSet (f m) m.id acc) []

/-- Number of keys of a lookup dictionary (`len(module_by_name)`). -/
def mapLen (m : List (String × String)) : Nat :=
  ((m.map (·.1)).dedup).length

/-- Mutation of the one module with internal id `mid` in place inside the
program (Python mutates the shared object; all aliases observe it). -/
def updateModul (sg : Studiengang) (mid : String) (f : Modul → Modul) : Studiengang :=
  { sg with semester := sg.semester.map (fun sem =>
      { sem with module := sem.module.map (fun m => if m.id = mid then f m else m) }) }

/-- Resolution of a module object reference by internal id. -/
def findModulById (sg : Studiengang) (mid : String) : Option Modul :=
  sg.get_all_module.find? (fun m => m.id = mid)

/-- `semester.add_modul(modul)` on the first semester with number `nummer`
(the one `get_semester` returns). -/
def addModulFirstSem (nummer : Int) (m : Modul) : List Semester → List Semester
  | [] => []
  | sem :: rest =>
      if sem.nummer = nummer then { sem with module := sem.module ++ [m] } :: rest
      else sem :: addModulFirstSem nummer m rest

/-- External environment of an import run: the `uuid4` id supply and
`date.today()`. -/
structure ImportEnv where
  uuid : Nat → String
  today : Date

/-- Mutable state threaded through the row loop of `import_csv`: the student,
the program, the two lookup dictionaries that are actually read
(`module_by_id` is built by the source but never read), and the position in
the id supply. -/
structure ImportState where
  student : Student
  studiengang : Studiengang
  by_modulID : List (String × String)
  by_name : List (String × String)
  ctr : Nat

/-- The state of `import_csv` just before the row loop: dictionaries built
from the program. -/
def initImportState (st : Student) (sg : Studiengang) (ctr : Nat) : ImportState :=
  { student := st
    studiengang := sg
    by_modulID := buildMap Modul.modulID sg
    by_name := buildMap Modul.modulName sg
    ctr := ctr }

/-- The human-facing id given to an auto-created module: the row's `Modul_ID`
when present, else `M{len(module_by_name)+1}`. -/
def autoNewModulID (s : ImportState) (row : CsvRow) : String :=
  if row.modul_id ≠ "" then row.modul_id
  else "M" ++ toString (mapLen s.by_name + 1)

/-- The module auto-created for an unmatched row: default `ects=5` and
`semesterZuordnung=1`. -/
def autoNewModul (env : ImportEnv) (s : ImportState) (row : CsvRow) : Modul :=
  { id := env.uuid s.ctr
    modulName := row.modul_name
    modulID := autoNewModulID s row
    beschreibung := ""
    ects := 5
    semesterZuordnung := 1
    pruefungsleistungen := []
    required_for_completion := [] }

/-- `studiengang.get_semester(1)` followed by `semester.add_modul(modul)`,
auto-creating semester 1 and adding it to the program when absent. -/
def attachToSemester1 (sg : Studiengang) (m : Modul) : Studiengang :=
  match sg.get_semester 1 with
  | some _ => { sg with semester := addModulFirstSem 1 m sg.semester }
  | none => { sg with semester := sg.semester ++ [(Semester.mkNew 1).add_modul m] }

/-- The module-resolution block of the row loop: match by `Modul_ID`, then by
`Modul_Name`, else auto-create a module attached to semester number 1.
Returns the internal id of the resolved module, if any. -/
def resolveModul (env : ImportEnv) (s : ImportState) (row : CsvRow) :
    ImportState × Option String :=
  if row.modul_id ≠ "" ∧ (mapGet row.modul_id s.by_modulID).isSome then
    (s, mapGet row.modul_id s.by_modulID)
  else if row.modul_name ≠ "" ∧ (mapGet row.modul_name s.by_name).isSome then
    (s, mapGet row.modul_name s.by_name)
  else if row.modul_name ≠ "" then
    ({ s with
        studiengang := attachToSemester1 s.studiengang (autoNewModul env s row)
        by_modulID := mapSet (autoNewModulID s row) (env.uuid s.ctr) s.by_modulID
        by_name := mapSet row.modul_name (env.uuid s.ctr) s.by_name
        ctr := s.ctr + 1 }, some (env.uuid s.ctr))
  else
    (s, none)

/-- The tail of the row loop: `student.add_pruefungsleistung(pruefung)`, then
`modul.add_pruefungsleistung(pruefung)` and the conditional
`student.update_ects_for_modul(modul, True)` when a module was resolved. -/
def attachPruefung (s : ImportState) (pl : Pruefungsleistung)
    (modulRef : Option String) : ImportState :=
  let st := { s.student with pruefungsleistungen := s.student.pruefungsleistungen ++ [pl] }
  match modulRef with
  | none => { s with student := st }
  | some mid =>
      let sg := updateModul s.studiengang mid (fun m =>
        { m with pruefungsleistungen :=
            m.pruefungsleistungen ++ [{ pl with modul_id := some m.id }] })
      let st2 :=
        if pl.bestanden then
          st.update_ects_for_modul (findModulById sg mid) true
        else st
      { s with student := st2, studiengang := sg }

/-- One iteration of the row loop of `import_csv` (the body of the per-row
`try`).  The `Bool` tells whether the row counted as a success (`True`) or as
an error (`False`, state handed back as the loop left it). -/
def process_row (env : ImportEnv) (s : ImportState) (row : CsvRow) :
    ImportState × Bool :=
  if validate_csv_row row ≠ [] then (s, false)
  else
    let s1 := (resolveModul env s row).1
    let modulRef := (resolveModul env s row).2
    let datum : Date :=
      match row.datum with
      | .valid d => d
      | _ => env.today
    let pl0 := Pruefungsleistung.mkNew (env.uuid s1.ctr) row.pruefungsart
      (some datum) row.beschreibung none 1 "" env.today
    let pl1 :=
      match modulRef with
      | some mid => { pl0 with modul_id := some mid }
      | none => pl0
    let s2 := { s1 with ctr := s1.ctr + 1 }
    match row.note with
    | .valid v =>
        match row.gewichtung.toFloat with
        | none => (s2, false)
        | some g =>
            let note : Note :=
              { typ := row.pruefungsart
                wert := v
                gewichtung := g
                datum := env.today
                kommentar := ""
                punkte := 0 }
            (attachPruefung s2 ((pl1.set_note (.typed note)).1) modulRef, true)
    | _ => (attachPruefung s2 pl1 modulRef, true)

/-- The row loop of `import_csv`: processes rows in order, tallying success
and error counts. -/
def import_rows (env : ImportEnv) : List CsvRow → ImportState →
    ImportState × Nat × Nat
  | [], s => (s, 0, 0)
  | row :: rest, s =>
      let pr := process_row env s row
      let r := import_rows env rest pr.1
      if pr.2 then (r.1, r.2.1 + 1, r.2.2) else (r.1, r.2.1, r.2.2 + 1)

/-- The value `import_csv` returns once row processing is reached:
`success_count > 0 or error_count == 0`. -/
def import_csv_result (env : ImportEnv) (rows : List CsvRow) (s : ImportState) :
    Bool :=
  let r := import_rows env rows s
  decide (r.2.1 > 0 ∨ r.2.2 = 0)

/-- A row imports successfully: it passes validation, and it does not carry a
grade together with an unusable (present-but-empty) weight cell. -/
def row_succeeds (row : CsvRow) : Bool :=
  decide (validate_csv_row row = []) &&
  !(match row.note, row.gewichtung with
    | .valid _, .empty => true
    | _, _ => false)

/-- The documented invariant of an exam record: `bestanden` is exactly
`grade.is_passed()` (threshold `4.0`) when a grade is present, else `False`. -/
def pl_grade_invariant (pl : Pruefungsleistung) : Prop :=
  pl.bestanden = pl.note.elim false (fun n => n.is_passed 4)

instance (pl : Pruefungsleistung) : Decidable (pl_grade_invariant pl) := by
  unfold pl_grade_invariant; infer_instance

/-! ## Concrete fixtures used by witnesses and counterexamples -/

/-- A concrete module fixture. -/
def fixModul : Modul :=
  { id := "mid-1"
    modulName := "Mathe 1"
    modulID := "M1"
    beschreibung := ""
    ects := 5
    semesterZuordnung := 1
    pruefungsleistungen := []
    required_for_completion := [] }

/-- A concrete student fixture with empty ledger and empty completed set. -/
def fixStudent : Student :=
  { id := "sid-1"
    vorname := "Max"
    nachname := "Muster"
    geburtsdatum := 0
    email := ""
    matrikelNr := "123456"
    immatrikulationsdatum := 0
    zielNotendurchschnitt := 2
    absolvierteECTS := 0
    fokus := ""
    aktuelleSemesterZahl := 1
    pruefungsleistungen := []
    bestandene_module_ids := ∅ }

/-- A student who already has `fixModul` registered as completed, with the
matching credit total. -/
def fixStudentDone : Student :=
  { fixStudent with
    absolvierteECTS := 5
    bestandene_module_ids := {"mid-1"} }

/-- A concrete ungraded exam-record fixture. -/
def fixPruefung : Pruefungsleistung :=
  Pruefungsleistung.mkNew "pid-1" "Klausur" none "" none 1 "" 0

/-- A concrete note fixture with an integral value (passed at threshold 4). -/
def fixNote : Note :=
  { typ := "Klausur", wert := 2, gewichtung := 1, datum := 0, kommentar := "", punkte := 0 }

/-- A module fixture with a required exam kind and two records of that kind,
one passed and one not. -/
def fixModulReq : Modul :=
  { fixModul with
    required_for_completion := ["Klausur"]
    pruefungsleistungen :=
      [{ fixPruefung with bestanden := true },
       { fixPruefung with id := "pid-2", bestanden := false }] }

/-- A student fixture whose ledger holds one passed graded record (score 2,
weight 1) and one failed graded record (excluded from the average). -/
def fixStudentGraded : Student :=
  { fixStudent with
    pruefungsleistungen :=
      [{ fixPruefung with note := some fixNote, bestanden := true },
       { fixPruefung with
          id := "pid-2"
          note := some { fixNote with wert := 5 }
          bestanden := false }] }

/-- A student fixture whose only passed graded record has weight `0.0`. -/
def fixStudentZeroWeight : Student :=
  { fixStudent with
    pruefungsleistungen :=
      [{ fixPruefung with
          note := some { fixNote with gewichtung := 0 }
          bestanden := true }] }

/-- A module fixture completed via the default any-one-passed rule. -/
def fixModulDone : Modul :=
  { fixModul with pruefungsleistungen := [{ fixPruefung with bestanden := true }] }

/-- A program fixture with semester 1 holding the completed module. -/
def fixStudiengang : Studiengang :=
  { id := "gid-1"
    name := "Informatik"
    gesamtECTS := 180
    semester := [{ Semester.mkNew 1 with module := [fixModulDone] }] }

/-- A student fixture violating the passed/grade invariant: one ledger record
with `passed = True` but no grade. -/
def fixStudentBad : Student :=
  { fixStudent with
    pruefungsleistungen := [{ fixPruefung with bestanden := true }]
    bestandene_module_ids := {"mid-1"} }

/-- A consistent student fixture with one graded passed record and a
non-empty completed set. -/
def fixStudentOk : Student :=
  { fixStudent with
    pruefungsleistungen :=
      [{ fixPruefung with note := some fixNote, bestanden := true }]
    bestandene_module_ids := {"mid-1"} }

/-- An import environment fixture: constant fresh-id supply, day 0. -/
def fixEnv : ImportEnv :=
  { uuid := fun _ => "u-new", today := 0 }

/-- A row fixture failing validation (empty exam kind). -/
def fixBadRow : CsvRow :=
  { modul_id := ""
    modul_name := ""
    pruefungsart := ""
    datum := .missing
    beschreibung := ""
    note := .missing
    gewichtung := .missing }

/-- The state right after the auto-create branch of the module-resolution
block (used to phrase the next proofs). -/
def autoResolvedState (env : ImportEnv) (s : ImportState) (row : CsvRow) :
    ImportState :=
  { s with
    studiengang := attachToSemester1 s.studiengang (autoNewModul env s row)
    by_modulID := mapSet (autoNewModulID s row) (env.uuid s.ctr) s.by_modulID
    by_name := mapSet row.modul_name (env.uuid s.ctr) s.by_name
    ctr := s.ctr + 1 }

/-- A program fixture with no semesters and no modules. -/
def fixSgEmpty : Studiengang :=
  { id := "gid-0", name := "Informatik", gesamtECTS := 180, semester := [] }

/-- A row fixture that passes validation but carries a grade together with a
present-but-empty weight cell: `float("")` raises during processing. -/
def fixTrapRow : CsvRow :=
  { modul_id := ""
    modul_name := "New Module"
    pruefungsart := "Klausur"
    datum := .missing
    beschreibung := ""
    note := .valid 2
    gewichtung := .empty }

/-- A row fixture auto-creating a module: new name, no grade cell. -/
def fixRowNew : CsvRow :=
  { modul_id := ""
    modul_name := "New Module"
    pruefungsart := "Klausur"
    datum := .missing
    beschreibung := ""
    note := .missing
    gewichtung := .missing }

/-! ## C2 -/

/-- C2: calling `update_credits_for_module(m, true)` twice changes
`earned_credits` by `m.credit_value` exactly once — when `m.id` was absent the
first call adds the id and the credits, and the second call is a no-op that
leaves the entire student state unchanged. -/
theorem claim_C2_credit_update_idempotent (st : Student) (m : Modul) :
    (st.update_ects_for_modul (some m) true).update_ects_for_modul (some m) true
        = st.update_ects_for_modul (some m) true ∧
    (m.id ∉ st.bestandene_module_ids →
      (st.update_ects_for_modul (some m) true).absolvierteECTS
          = st.absolvierteECTS + m.ects ∧
      m.id ∈ (st.update_ects_for_modul (some m) true).bestandene_module_ids ∧
      ((st.update_ects_for_modul (some m) true).update_ects_for_modul
          (some m) true).absolvierteECTS = st.absolvierteECTS + m.ects) := by
  constructor
  · by_cases h : m.id ∈ st.bestandene_module_ids <;>
      simp [Student.update_ects_for_modul, h]
  · intro h
    simp [Student.update_ects_for_modul, h]

/-- Witness for C2 at concrete inputs. -/
theorem claim_C2_credit_update_idempotent_witness :
    (fixStudent.update_ects_for_modul (some fixModul) true).update_ects_for_modul
        (some fixModul) true
      = fixStudent.update_ects_for_modul (some fixModul) true ∧
    (fixStudent.update_ects_for_modul (some fixModul) true).absolvierteECTS
        = fixStudent.absolvierteECTS + fixModul.ects ∧
    fixModul.id ∈
      (fixStudent.update_ects_for_modul (some fixModul) true).bestandene_module_ids ∧
    ((fixStudent.update_ects_for_modul (some fixModul) true).update_ects_for_modul
        (some fixModul) true).absolvierteECTS
      = fixStudent.absolvierteECTS + fixModul.ects :=
  ⟨(claim_C2_credit_update_idempotent fixStudent fixModul).1,
   (claim_C2_credit_update_idempotent fixStudent fixModul).2 (by decide)⟩

/-! ## C3 -/

/-- Counterexample to C3 as stated: for a student whose completed set already
contains `m.id` (with the matching credits), `update(m, true)` is a no-op and
`update(m, false)` then subtracts the credits, so the pair does not restore
`earned_credits`. -/
theorem claim_C3_counterexample :
    ¬ (((fixStudentDone.update_ects_for_modul (some fixModul) true
          ).update_ects_for_modul (some fixModul) false).absolvierteECTS
            = fixStudentDone.absolvierteECTS ∧
       fixModul.id ∉
        ((fixStudentDone.update_ects_for_modul (some fixModul) true
          ).update_ects_for_modul (some fixModul) false).bestandene_module_ids) := by
  decide

/-- C3 (amended): for every student state in which `m.id` is **not already**
in `completed_module_ids`, `update(m, true)` followed by `update(m, false)`
restores the entire student state (in particular `earned_credits`) and leaves
`m.id` absent from `completed_module_ids`. -/
theorem claim_C3_inverse_amended (st : Student) (m : Modul)
    (h : m.id ∉ st.bestandene_module_ids) :
    (st.update_ects_for_modul (some m) true).update_ects_for_modul (some m) false
        = st ∧
    m.id ∉ ((st.update_ects_for_modul (some m) true).update_ects_for_modul
        (some m) false).bestandene_module_ids := by
  have h2 :
      (st.update_ects_for_modul (some m) true).update_ects_for_modul (some m) false
        = st := by
    simp only [Student.update_ects_for_modul, if_neg h, Finset.mem_insert_self,
      if_pos, if_true]
    cases st with
    | mk id v n g e mn im z a f ak p b =>
        simp [Finset.erase_insert h]
  exact ⟨h2, by rw [h2]; exact h⟩

/-- Witness for the amended C3 at concrete inputs. -/
theorem claim_C3_inverse_amended_witness :
    (fixStudent.update_ects_for_modul (some fixModul) true).update_ects_for_modul
        (some fixModul) false = fixStudent ∧
    fixModul.id ∉ ((fixStudent.update_ects_for_modul (some fixModul) true
        ).update_ects_for_modul (some fixModul) false).bestandene_module_ids :=
  claim_C3_inverse_amended fixStudent fixModul (by decide)

/-! ## C6 -/

/-- C6: `set_grade` fails with a type error on a non-`Note` argument leaving
the record unchanged; on a `Note` it stores the note and atomically recomputes
`passed = grade.is_passed()`; the passed/grade invariant holds after
construction and is preserved by every `set_grade` call. -/
theorem claim_C6_set_note (pl : Pruefungsleistung) (n : Note) (arg : PyValue Note)
    (id art : String) (datum : Option Date) (beschreibung : String)
    (deadline : Option Date) (versuche : Int) (anmerkung : String) (today : Date) :
    ((pl.set_note PyValue.other).1 = pl ∧ (pl.set_note PyValue.other).2.isSome) ∧
    pl.set_note (PyValue.typed n)
        = ({ pl with note := some n, bestanden := n.is_passed 4 }, none) ∧
    (pl_grade_invariant pl → pl_grade_invariant (pl.set_note arg).1) ∧
    pl_grade_invariant
      (Pruefungsleistung.mkNew id art datum beschreibung deadline versuche
        anmerkung today) := by
  refine ⟨⟨rfl, rfl⟩, rfl, ?_, rfl⟩
  intro hinv
  cases arg with
  | other => exact hinv
  | typed n' => simp [Pruefungsleistung.set_note, pl_grade_invariant]

/-- Witness for C6 at concrete inputs. -/
theorem claim_C6_set_note_witness :
    ((fixPruefung.set_note PyValue.other).1 = fixPruefung ∧
      (fixPruefung.set_note PyValue.other).2.isSome) ∧
    fixPruefung.set_note (PyValue.typed fixNote)
        = ({ fixPruefung with
              note := some fixNote
              bestanden := fixNote.is_passed 4 }, none) ∧
    pl_grade_invariant (fixPruefung.set_note (PyValue.typed fixNote)).1 ∧
    pl_grade_invariant
      (Pruefungsleistung.mkNew "pid-1" "Klausur" none "" none 1 "" 0) := by
  have h := claim_C6_set_note fixPruefung fixNote (PyValue.typed fixNote)
    "pid-1" "Klausur" none "" none 1 "" 0
  exact ⟨h.1, h.2.1, h.2.2.1 (by decide), h.2.2.2⟩

/-! ## C9 -/

/-- Counterexample to C9 as stated: `Semester.add_modul` performs no type
check — a non-`Modul` argument is appended to the (initially empty) module
list and no error is raised, contradicting "fails with a TypeConflict error
and leaves the semester's module list unchanged". -/
theorem claim_C9_counterexample :
    ¬ ((Semester.add_modul_dyn [] PyValue.other).2.isSome ∧
       (Semester.add_modul_dyn [] PyValue.other).1 = []) := by
  decide

/-- C9 (amended): `Semester.add_modul` is **not** type-checked — for every
argument, `Modul` or not, it appends the argument to the module list and
raises no error. -/
theorem claim_C9_add_modul_amended (module : List (PyValue Modul))
    (arg : PyValue Modul) :
    Semester.add_modul_dyn module arg = (module ++ [arg], none) :=
  rfl

/-! ## C4 -/

/-- C4: completion decision policy of `is_complete_for_student` — no records →
`false`; with required kinds and at least one record of a required kind,
complete iff all records of required kind are passed; otherwise (no required
kinds, or no record of a required kind) complete iff at least one record is
passed. -/
theorem claim_C4_module_completion (m : Modul) (stOpt : Option Student) :
    (m.pruefungsleistungen = [] → m.is_complete_for_student stOpt = false) ∧
    (m.required_for_completion ≠ [] →
      m.pruefungsleistungen.filter
          (fun pl => m.required_for_completion.contains pl.art) ≠ [] →
      (m.is_complete_for_student stOpt = true ↔
        ∀ pl ∈ m.pruefungsleistungen.filter
            (fun pl => m.required_for_completion.contains pl.art),
          pl.bestanden = true)) ∧
    ((m.required_for_completion = [] ∨
      m.pruefungsleistungen.filter
          (fun pl => m.required_for_completion.contains pl.art) = []) →
      (m.is_complete_for_student stOpt = true ↔
        ∃ pl ∈ m.pruefungsleistungen, pl.bestanden = true)) := by
  refine ⟨fun h1 => ?_, fun h2 h3 => ?_, fun h4 => ?_⟩
  · simp [Modul.is_complete_for_student, h1]
  · have h1 : ¬ m.pruefungsleistungen = [] := by
      intro h; rw [h] at h3; exact h3 rfl
    simp only [Modul.is_complete_for_student]
    rw [if_neg (by simp [List.isEmpty_iff, h1]),
      if_pos (by simp [List.isEmpty_iff, h2]),
      if_neg (by simp only [List.isEmpty_iff]; exact h3)]
    exact List.all_eq_true
  · rcases h4 with h4 | h4
    · by_cases h1 : m.pruefungsleistungen = []
      · simp [Modul.is_complete_for_student, h1]
      · simp only [Modul.is_complete_for_student]
        rw [if_neg (by simp [List.isEmpty_iff, h1]),
          if_neg (by simp [List.isEmpty_iff, h4])]
        simp [List.any_eq_true]
    · by_cases h1 : m.pruefungsleistungen = []
      · simp [Modul.is_complete_for_student, h1]
      · by_cases h2 : m.required_for_completion = []
        · simp only [Modul.is_complete_for_student]
          rw [if_neg (by simp [List.isEmpty_iff, h1]),
            if_neg (by simp [List.isEmpty_iff, h2])]
          simp [List.any_eq_true]
        · simp only [Modul.is_complete_for_student]
          rw [if_neg (by simp [List.isEmpty_iff, h1]),
            if_pos (by simp [List.isEmpty_iff, h2]),
            if_pos (by simp only [List.isEmpty_iff]; exact h4)]
          simp [List.any_eq_true]

/-- Witness for C4 at a concrete module with required kinds present. -/
theorem claim_C4_module_completion_witness :
    fixModulReq.is_complete_for_student (some fixStudent) = true ↔
      ∀ pl ∈ fixModulReq.pruefungsleistungen.filter
          (fun pl => fixModulReq.required_for_completion.contains pl.art),
        pl.bestanden = true :=
  (claim_C4_module_completion fixModulReq (some fixStudent)).2.1
    (by decide) (by decide)

/-! ## C5 -/

/-- C5: the weighted average considers exactly the ledger records that are
passed and carry a grade — `0.0` when there are none, `0.0` when their total
weight is `0` (no division error), else `sum(score*weight)/sum(weight)`. -/
theorem claim_C5_weighted_average (st : Student) :
    (st.pruefungsleistungen.filter (fun pl => pl.bestanden && pl.note.isSome)
        = [] → st.get_durchschnittnote = 0) ∧
    ((((st.pruefungsleistungen.filter (fun pl => pl.bestanden && pl.note.isSome)
        ).filterMap (·.note)).map (·.gewichtung)).sum = 0 →
      st.get_durchschnittnote = 0) ∧
    (st.pruefungsleistungen.filter (fun pl => pl.bestanden && pl.note.isSome)
        ≠ [] →
     (((st.pruefungsleistungen.filter (fun pl => pl.bestanden && pl.note.isSome)
        ).filterMap (·.note)).map (·.gewichtung)).sum ≠ 0 →
      st.get_durchschnittnote =
        (((st.pruefungsleistungen.filter (fun pl => pl.bestanden && pl.note.isSome)
          ).filterMap (·.note)).map (fun n => n.wert * n.gewichtung)).sum /
        (((st.pruefungsleistungen.filter (fun pl => pl.bestanden && pl.note.isSome)
          ).filterMap (·.note)).map (·.gewichtung)).sum) := by
  refine ⟨fun h1 => ?_, fun h2 => ?_, fun h3 h4 => ?_⟩
  · simp [Student.get_durchschnittnote, h1]
  · by_cases h1 : st.pruefungsleistungen.filter
        (fun pl => pl.bestanden && pl.note.isSome) = []
    · simp [Student.get_durchschnittnote, h1]
    · simp only [Student.get_durchschnittnote]
      rw [if_neg (by simp [List.isEmpty_iff, h1]), if_pos h2]
  · simp only [Student.get_durchschnittnote]
    rw [if_neg (by simp [List.isEmpty_iff, h3]), if_neg h4]
    rfl

/-! ## C1 -/

/-- Helper: inserting the id of a member module `m` (not yet in `S`) into `S`
raises the tracked credit sum by exactly `m.ects`, provided ids are distinct. -/
theorem ects_sum_insert :
    ∀ (mods : List Modul) (S : Finset String) (m : Modul),
      (mods.map Modul.id).Nodup → m ∈ mods → m.id ∉ S →
      ((mods.filter (fun x => x.id ∈ insert m.id S)).map Modul.ects).sum
        = ((mods.filter (fun x => x.id ∈ S)).map Modul.ects).sum + m.ects := by
  intro mods
  induction mods with
  | nil => intro S m _ hm; cases hm
  | cons x xs ih =>
      intro S m hnd hm hnot
      rw [List.map_cons, List.nodup_cons] at hnd
      obtain ⟨hx, hndxs⟩ := hnd
      rcases List.mem_cons.mp hm with rfl | hmxs
      · have hxs : (xs.filter (fun y => y.id ∈ insert m.id S))
            = xs.filter (fun y => y.id ∈ S) := by
          apply List.filter_congr
          intro y hy
          have hne : y.id ≠ m.id := by
            intro h
            exact hx (h ▸ List.mem_map_of_mem Modul.id hy)
          simp [Finset.mem_insert, hne]
        rw [List.filter_cons, List.filter_cons,
          if_pos (by simp), if_neg (by simpa using hnot), hxs]
        simp only [List.map_cons, List.sum_cons]
        omega
      · have hne : x.id ≠ m.id := by
          intro h
          exact hx (h ▸ List.mem_map_of_mem Modul.id hmxs)
        have hrec := ih S m hndxs hmxs hnot
        by_cases hxS : x.id ∈ S
        · have hxI : x.id ∈ insert m.id S := Finset.mem_insert_of_mem hxS
          simp only [List.filter_cons]
          rw [if_pos (by simpa using hxI), if_pos (by simpa using hxS)]
          simp only [List.map_cons, List.sum_cons]
          omega
        · have hxI : x.id ∉ insert m.id S := by
            simp [Finset.mem_insert, hne, hxS]
          simp only [List.filter_cons]
          rw [if_neg (by simpa using hxI), if_neg (by simpa using hxS)]
          exact hrec

/-- Helper: erasing the id of a member module `m` (present in `S`) lowers the
tracked credit sum by exactly `m.ects`, provided ids are distinct. -/
theorem ects_sum_erase (mods : List Modul) (S : Finset String) (m : Modul)
    (hnd : (mods.map Modul.id).Nodup) (hm : m ∈ mods) (hmem : m.id ∈ S) :
    ((mods.filter (fun x => x.id ∈ S.erase m.id)).map Modul.ects).sum
      = ((mods.filter (fun x => x.id ∈ S)).map Modul.ects).sum - m.ects := by
  have h1 : insert m.id (S.erase m.id) = S := Finset.insert_erase hmem
  have h2 := ects_sum_insert mods (S.erase m.id) m hnd hm
    (Finset.not_mem_erase m.id S)
  rw [h1] at h2
  omega

/-- Helper: the two projections of the recompute fold of
`_aktualisiere_bestandene_module` (the completion test ignores the evolving
student, so it is written with the `none` context on the right). -/
theorem aktualisiere_fold_proj :
    ∀ (mods : List Modul) (s : Student),
      (mods.foldl
        (fun s m =>
          if m.is_complete_for_student (some s) then
            { s with
                bestandene_module_ids := insert m.id s.bestandene_module_ids
                absolvierteECTS := s.absolvierteECTS + m.ects }
          else s) s).bestandene_module_ids
          = s.bestandene_module_ids ∪
            ((mods.filter (fun m => m.is_complete_for_student none)).map
              Modul.id).toFinset ∧
      (mods.foldl
        (fun s m =>
          if m.is_complete_for_student (some s) then
            { s with
                bestandene_module_ids := insert m.id s.bestandene_module_ids
                absolvierteECTS := s.absolvierteECTS + m.ects }
          else s) s).absolvierteECTS
          = s.absolvierteECTS +
            ((mods.filter (fun m => m.is_complete_for_student none)).map
              Modul.ects).sum := by
  intro mods
  induction mods with
  | nil => intro s; simp
  | cons x xs ih =>
      intro s
      by_cases hc : x.is_complete_for_student none
      · have hc' : x.is_complete_for_student (some s) = true := hc
        simp only [List.foldl_cons, List.filter_cons, hc, hc', if_pos,
          List.map_cons, List.sum_cons, List.toFinset_cons]
        constructor
        · rw [(ih _).1]
          simp [Finset.insert_union, Finset.union_insert]
        · rw [(ih _).2]
          simp only []
          omega
      · have hcn : x.is_complete_for_student none = false := by
          simpa using hc
        have hcs : x.is_complete_for_student (some s) = false := hcn
        simp only [List.foldl_cons, List.filter_cons, hcs, hcn,
          Bool.false_eq_true, if_false]
        exact ih s

/-- C1: the cross-entity invariant — `earned_credits` equals the credit sum
over exactly the modules whose id is tracked — is preserved by every call of
`update_credits_for_module` with a module of the program, and re-established
by the full recompute `_aktualisiere_bestandene_module`, provided distinct
modules have distinct ids. -/
theorem claim_C1_ects_invariant :
    (∀ (mods : List Modul) (st : Student) (m : Modul) (b : Bool),
        (mods.map Modul.id).Nodup → m ∈ mods → ects_invariant mods st →
        ects_invariant mods (st.update_ects_for_modul (some m) b)) ∧
    (∀ (sg : Studiengang) (st : Student),
        ((sg.get_all_module.map Modul.id)).Nodup →
        ects_invariant sg.get_all_module
          (aktualisiere_bestandene_module sg st)) := by
  constructor
  · intro mods st m b hnd hm hinv
    unfold ects_invariant at hinv ⊢
    cases b with
    | true =>
        by_cases hmem : m.id ∈ st.bestandene_module_ids
        · simp only [Student.update_ects_for_modul, if_pos hmem, if_true]
          exact hinv
        · simp only [Student.update_ects_for_modul, if_neg hmem, if_true]
          rw [ects_sum_insert mods st.bestandene_module_ids m hnd hm hmem]
          omega
    | false =>
        by_cases hmem : m.id ∈ st.bestandene_module_ids
        · simp only [Student.update_ects_for_modul, if_pos hmem, if_false,
            Bool.false_eq_true]
          rw [ects_sum_erase mods st.bestandene_module_ids m hnd hm hmem]
          omega
        · simp only [Student.update_ects_for_modul, if_neg hmem, if_false,
            Bool.false_eq_true]
          exact hinv
  · intro sg st hnd
    unfold ects_invariant aktualisiere_bestandene_module
    obtain ⟨hS, hE⟩ := aktualisiere_fold_proj sg.get_all_module
      { st with bestandene_module_ids := ∅, absolvierteECTS := 0 }
    rw [hS, hE]
    simp only [Finset.empty_union, zero_add]
    have hfil :
        sg.get_all_module.filter (fun x => x.id ∈
          ((sg.get_all_module.filter
            (fun m => m.is_complete_for_student none)).map Modul.id).toFinset)
          = sg.get_all_module.filter (fun m => m.is_complete_for_student none) := by
      apply List.filter_congr
      intro x hx
      cases hb : x.is_complete_for_student none with
      | false =>
          rw [decide_eq_false_iff_not]
          intro hmem
          rw [List.mem_toFinset, List.mem_map] at hmem
          obtain ⟨y, hy, hyx⟩ := hmem
          have hy' := List.mem_filter.mp hy
          have hxy : y = x := List.inj_on_of_nodup_map hnd hy'.1 hx hyx
          subst hxy
          rw [hb] at hy'
          simpa using hy'.2
      | true =>
          rw [decide_eq_true_eq, List.mem_toFinset, List.mem_map]
          exact ⟨x, List.mem_filter.mpr ⟨hx, by simpa using hb⟩, rfl⟩
    rw [hfil]

/-- Witness for C5: a concrete non-empty average and the concrete zero-weight
case (no division error, result `0.0`). -/
theorem claim_C5_weighted_average_witness :
    fixStudentGraded.get_durchschnittnote =
      (((fixStudentGraded.pruefungsleistungen.filter
            (fun pl => pl.bestanden && pl.note.isSome)
        ).filterMap (·.note)).map (fun n => n.wert * n.gewichtung)).sum /
      (((fixStudentGraded.pruefungsleistungen.filter
            (fun pl => pl.bestanden && pl.note.isSome)
        ).filterMap (·.note)).map (·.gewichtung)).sum ∧
    fixStudentZeroWeight.get_durchschnittnote = 0 :=
  ⟨(claim_C5_weighted_average fixStudentGraded).2.2 (by decide)
      (by norm_num [fixStudentGraded, fixPruefung, fixNote,
        Pruefungsleistung.mkNew, List.filter, List.filterMap]),
   (claim_C5_weighted_average fixStudentZeroWeight).2.1
      (by norm_num [fixStudentZeroWeight, fixPruefung, fixNote,
        Pruefungsleistung.mkNew, List.filter, List.filterMap])⟩

/-- Witness for C1 at concrete inputs. -/
theorem claim_C1_ects_invariant_witness :
    ects_invariant [fixModul]
      (fixStudent.update_ects_for_modul (some fixModul) true) ∧
    ects_invariant fixStudiengang.get_all_module
      (aktualisiere_bestandene_module fixStudiengang fixStudent) :=
  ⟨claim_C1_ects_invariant.1 [fixModul] fixStudent fixModul true
      (by decide) (by decide) (by decide),
   claim_C1_ects_invariant.2 fixStudiengang fixStudent (by decide)⟩

/-! ## C7 -/

/-- Helper: `Note` serialization round-trips exactly. -/
theorem note_roundtrip (n : Note) : Note.from_dict (Note.to_dict n) = n :=
  rfl

/-- Helper: an exam record round-trips when it satisfies the passed/grade
invariant direction exercised by `from_dict` (no note → not passed). -/
theorem pl_roundtrip (pl : Pruefungsleistung)
    (h : pl.note = none → pl.bestanden = false) :
    Pruefungsleistung.from_dict (Pruefungsleistung.to_dict pl) = pl := by
  cases pl with
  | mk id art datum beschreibung deadline versuche anmerkung note bestanden modul_id =>
      cases note with
      | none =>
          have hb : bestanden = false := h rfl
          subst hb
          rfl
      | some n => rfl

/-- Helper: a ledger of records round-trips under the same condition. -/
theorem pls_roundtrip :
    ∀ (l : List Pruefungsleistung),
      (∀ pl ∈ l, pl.note = none → pl.bestanden = false) →
      (l.map Pruefungsleistung.to_dict).map Pruefungsleistung.from_dict = l := by
  intro l
  induction l with
  | nil => intro _; rfl
  | cons pl rest ih =>
      intro h
      simp only [List.map_cons]
      rw [pl_roundtrip pl (h pl (List.mem_cons_self pl rest)),
        ih (fun q hq => h q (List.mem_cons_of_mem pl hq))]

/-- Counterexample to C7 as stated: a student with one exam record and a
non-empty completed set whose record has `passed = True` without a grade does
not round-trip — `from_dict` resets the flag to `False`. -/
theorem claim_C7_counterexample :
    Student.from_dict (Student.to_dict fixStudentBad) ≠ fixStudentBad :=
  fun h => absurd (congrArg Student.pruefungsleistungen h) (by decide)

/-- C7 (amended): every student with at least one ledger record and a
non-empty completed-module set round-trips through `to_dict`/`from_dict` with
all fields equal, provided each ledger record without a grade has
`passed = False` (the invariant `from_dict` silently re-imposes). -/
theorem claim_C7_roundtrip_amended (st : Student)
    (hcons : ∀ pl ∈ st.pruefungsleistungen, pl.note = none → pl.bestanden = false)
    (hrec : st.pruefungsleistungen ≠ [])
    (hset : st.bestandene_module_ids ≠ ∅) :
    Student.from_dict (Student.to_dict st) = st := by
  cases st with
  | mk id v n g e mn im z a f ak pls bm =>
      simp only [Student.to_dict, Student.from_dict, Student.mk.injEq,
        true_and, and_true]
      exact ⟨pls_roundtrip pls hcons, Finset.sort_toFinset _ bm⟩

/-- Witness for the amended C7 at a concrete consistent student. -/
theorem claim_C7_roundtrip_amended_witness :
    Student.from_dict (Student.to_dict fixStudentOk) = fixStudentOk :=
  claim_C7_roundtrip_amended fixStudentOk (by decide) (by decide) (by decide)

/-! ## C10 -/

/-- Helper: whether a row counts as a success is intrinsic to the row. -/
theorem process_row_ok (env : ImportEnv) (s : ImportState) (row : CsvRow) :
    (process_row env s row).2 = row_succeeds row := by
  by_cases hv : validate_csv_row row = []
  · unfold process_row
    rw [if_neg (by simpa using hv)]
    unfold row_succeeds
    cases hn : row.note with
    | valid v =>
        cases hgw : row.gewichtung with
        | missing => simp [hn, hgw, GewVal.toFloat, hv]
        | empty => simp [hn, hgw, GewVal.toFloat, hv]
        | invalid =>
            exfalso
            simp [validate_csv_row, hgw] at hv
        | valid g => simp [hn, hgw, GewVal.toFloat, hv]
    | missing => simp [hn, hv]
    | invalid =>
        exfalso
        simp [validate_csv_row, hn] at hv
  · unfold process_row row_succeeds
    rw [if_pos (by simpa using hv)]
    simp [hv]

/-- Helper: a row that fails validation is skipped with the state untouched. -/
theorem process_row_invalid (env : ImportEnv) (s : ImportState) (row : CsvRow)
    (h : validate_csv_row row ≠ []) :
    process_row env s row = (s, false) := by
  unfold process_row
  rw [if_pos h]

/-- Helper: the final state steps through the head row's processing. -/
theorem import_rows_fst_cons (env : ImportEnv) (row : CsvRow) (rest : List CsvRow)
    (s : ImportState) :
    (import_rows env (row :: rest) s).1
      = (import_rows env rest (process_row env s row).1).1 := by
  rw [import_rows]
  by_cases h : (process_row env s row).2 <;> simp [h]

/-- Helper: the success and error tallies count exactly the rows that import
and the rows that fail. -/
theorem import_rows_counts (env : ImportEnv) :
    ∀ (rows : List CsvRow) (s : ImportState),
      (import_rows env rows s).2.1 = rows.countP row_succeeds ∧
      (import_rows env rows s).2.2 = rows.countP (fun r => !row_succeeds r) := by
  intro rows
  induction rows with
  | nil => intro s; simp [import_rows]
  | cons row rest ih =>
      intro s
      unfold import_rows
      simp only [process_row_ok]
      by_cases h : row_succeeds row
      · simp [h, List.countP_cons, (ih _).1, (ih _).2]
      · simp [h, List.countP_cons, (ih _).1, (ih _).2]

/-- Helper: processing an appended row list processes the first part first
and continues from the reached state. -/
theorem import_rows_fst_append (env : ImportEnv) :
    ∀ (l1 l2 : List CsvRow) (s : ImportState),
      (import_rows env (l1 ++ l2) s).1
        = (import_rows env l2 (import_rows env l1 s).1).1 := by
  intro l1
  induction l1 with
  | nil => intro l2 s; rfl
  | cons row rest ih =>
      intro l2 s
      rw [List.cons_append, import_rows_fst_cons, import_rows_fst_cons, ih]

/-- C10: once row processing is reached, `import_csv` returns true iff some
row imported or no row errored; an all-invalid non-empty file yields false; a
file with zero data rows yields true; rows are processed sequentially from the
state the previous rows produced, and a validation-failing row contributes
nothing to the final state, so earlier imported rows remain applied. -/
theorem claim_C10_import_result (env : ImportEnv) (s0 : ImportState)
    (rows : List CsvRow) :
    (import_csv_result env rows s0 = true ↔
      (import_rows env rows s0).2.1 > 0 ∨ (import_rows env rows s0).2.2 = 0) ∧
    ((import_rows env rows s0).2.1 = rows.countP row_succeeds ∧
      (import_rows env rows s0).2.2 = rows.countP (fun r => !row_succeeds r)) ∧
    (rows = [] → import_csv_result env rows s0 = true) ∧
    (rows ≠ [] → (∀ row ∈ rows, validate_csv_row row ≠ []) →
      import_csv_result env rows s0 = false) ∧
    (∀ l1 l2, rows = l1 ++ l2 →
      (import_rows env rows s0).1
        = (import_rows env l2 (import_rows env l1 s0).1).1) ∧
    (∀ pre bad post, rows = pre ++ bad :: post → validate_csv_row bad ≠ [] →
      (import_rows env rows s0).1 = (import_rows env (pre ++ post) s0).1) := by
  refine ⟨?_, import_rows_counts env rows s0, ?_, ?_, ?_, ?_⟩
  · unfold import_csv_result
    simp
  · intro h
    subst h
    rfl
  · intro hne hall
    have h1 : rows.countP row_succeeds = 0 := by
      apply List.countP_eq_zero.mpr
      intro a ha
      simp [row_succeeds, hall a ha]
    have h2 : rows.countP (fun r => !row_succeeds r) = rows.length := by
      apply List.countP_eq_length.mpr
      intro a ha
      simp [row_succeeds, hall a ha]
    unfold import_csv_result
    rw [decide_eq_false_iff_not]
    push_neg
    refine ⟨?_, ?_⟩
    · rw [(import_rows_counts env rows s0).1, h1]
    · rw [(import_rows_counts env rows s0).2, h2]
      simpa [List.length_eq_zero] using hne
  · intro l1 l2 h
    subst h
    exact import_rows_fst_append env l1 l2 s0
  · intro pre bad post hrows hbad
    subst hrows
    rw [import_rows_fst_append, import_rows_fst_append, import_rows_fst_cons,
      process_row_invalid env _ bad hbad]

/-- Witness for C10 at concrete inputs: zero data rows give `True`, a single
all-invalid row gives `False`. -/
theorem claim_C10_import_result_witness :
    import_csv_result fixEnv [] (initImportState fixStudent fixStudiengang 0)
        = true ∧
    import_csv_result fixEnv [fixBadRow]
        (initImportState fixStudent fixStudiengang 0) = false :=
  ⟨(claim_C10_import_result fixEnv (initImportState fixStudent fixStudiengang 0)
      []).2.2.1 rfl,
   (claim_C10_import_result fixEnv (initImportState fixStudent fixStudiengang 0)
      [fixBadRow]).2.2.2.1 (by decide) (by decide)⟩

/-! ## C8 -/

/-- Helper: `get_all_module` as a flattened map. -/
theorem get_all_module_eq (sg : Studiengang) :
    sg.get_all_module = (sg.semester.map Semester.module).flatten := by
  have hfold : ∀ (sems : List Semester) (acc : List Modul),
      sems.foldl (fun a sem => a ++ sem.module) acc
        = acc ++ (sems.map Semester.module).flatten := by
    intro sems
    induction sems with
    | nil => intro acc; simp
    | cons x xs ih => intro acc; simp [ih]
  simpa using hfold sg.semester []

/-- Helper: `updateModul` rewrites every module of the program in place. -/
theorem updateModul_get_all (sg : Studiengang) (mid : String) (f : Modul → Modul) :
    (updateModul sg mid f).get_all_module
      = sg.get_all_module.map (fun x => if x.id = mid then f x else x) := by
  rw [get_all_module_eq, get_all_module_eq]
  unfold updateModul
  simp only [List.map_map, List.map_flatten]
  rfl

/-- Helper: appending a module to the first semester numbered `nummer` adds
exactly that module to the flattened module list, up to permutation. -/
theorem addModulFirstSem_perm (m : Modul) :
    ∀ (sems : List Semester), (∃ sem ∈ sems, sem.nummer = 1) →
      (((addModulFirstSem 1 m sems).map Semester.module).flatten).Perm
        ((sems.map Semester.module).flatten ++ [m]) := by
  intro sems
  induction sems with
  | nil => rintro ⟨sem, hsem, _⟩; cases hsem
  | cons x xs ih =>
      rintro ⟨sem, hsem, hnum⟩
      by_cases hx : x.nummer = 1
      · unfold addModulFirstSem
        rw [if_pos hx]
        simp only [List.map_cons, List.flatten_cons]
        rw [List.append_assoc, List.append_assoc]
        exact List.Perm.append_left x.module List.perm_append_comm
      · have hxs : ∃ sem ∈ xs, sem.nummer = 1 := by
          rcases List.mem_cons.mp hsem with rfl | hmem
          · exact absurd hnum hx
          · exact ⟨sem, hmem, hnum⟩
        unfold addModulFirstSem
        rw [if_neg hx]
        simp only [List.map_cons, List.flatten_cons]
        rw [List.append_assoc]
        exact List.Perm.append_left x.module (ih hxs)

/-- Helper: after the append, some semester numbered 1 holds the module. -/
theorem addModulFirstSem_mem (m : Modul) :
    ∀ (sems : List Semester), (∃ sem ∈ sems, sem.nummer = 1) →
      ∃ sem' ∈ addModulFirstSem 1 m sems, sem'.nummer = 1 ∧ m ∈ sem'.module := by
  intro sems
  induction sems with
  | nil => rintro ⟨sem, hsem, _⟩; cases hsem
  | cons x xs ih =>
      rintro ⟨sem, hsem, hnum⟩
      by_cases hx : x.nummer = 1
      · refine ⟨{ x with module := x.module ++ [m] }, ?_, hx, ?_⟩
        · unfold addModulFirstSem
          rw [if_pos hx]
          exact List.mem_cons_self _ _
        · simp
      · have hxs : ∃ sem ∈ xs, sem.nummer = 1 := by
          rcases List.mem_cons.mp hsem with rfl | hmem
          · exact absurd hnum hx
          · exact ⟨sem, hmem, hnum⟩
        obtain ⟨sem', hmem', hnum', hm'⟩ := ih hxs
        refine ⟨sem', ?_, hnum', hm'⟩
        unfold addModulFirstSem
        rw [if_neg hx]
        exact List.mem_cons_of_mem x hmem'

/-- Helper: attaching a module to semester 1 adds exactly it to the program's
modules, up to permutation. -/
theorem attachToSemester1_perm (sg : Studiengang) (m : Modul) :
    ((attachToSemester1 sg m).get_all_module).Perm
      (sg.get_all_module ++ [m]) := by
  unfold attachToSemester1
  cases hsem : sg.get_semester 1 with
  | none =>
      rw [get_all_module_eq, get_all_module_eq]
      simp [Semester.add_modul, Semester.mkNew]
  | some w =>
      have hex : ∃ sem ∈ sg.semester, sem.nummer = 1 := by
        have hw := List.mem_of_find?_eq_some hsem
        have hp := List.find?_some hsem
        exact ⟨w, hw, by simpa using hp⟩
      rw [get_all_module_eq, get_all_module_eq]
      exact addModulFirstSem_perm m sg.semester hex

/-- Helper: after attaching, some semester numbered 1 holds the module. -/
theorem attachToSemester1_mem (sg : Studiengang) (m : Modul) :
    ∃ sem ∈ (attachToSemester1 sg m).semester,
      sem.nummer = 1 ∧ m ∈ sem.module := by
  unfold attachToSemester1
  cases hsem : sg.get_semester 1 with
  | none =>
      refine ⟨(Semester.mkNew 1).add_modul m, ?_, rfl, by
        simp [Semester.add_modul, Semester.mkNew]⟩
      simp
  | some w =>
      have hex : ∃ sem ∈ sg.semester, sem.nummer = 1 := by
        have hw := List.mem_of_find?_eq_some hsem
        have hp := List.find?_some hsem
        exact ⟨w, hw, by simpa using hp⟩
      exact addModulFirstSem_mem m sg.semester hex

/-- Helper: when semester 1 is absent it is created and appended. -/
theorem attachToSemester1_none (sg : Studiengang) (m : Modul)
    (h : sg.get_semester 1 = none) :
    (attachToSemester1 sg m).semester
      = sg.semester ++ [(Semester.mkNew 1).add_modul m] := by
  unfold attachToSemester1
  rw [h]

/-- Helper: credit updates do not touch the exam ledger. -/
theorem update_ects_pls (st : Student) (o : Option Modul) (b : Bool) :
    (st.update_ects_for_modul o b).pruefungsleistungen = st.pruefungsleistungen := by
  cases o with
  | none => rfl
  | some m =>
      cases b <;> by_cases h : m.id ∈ st.bestandene_module_ids <;>
        simp [Student.update_ects_for_modul, h]

/-- Helper: a key absent from every module is absent from the built lookup
dictionary. -/
theorem mapGet_buildMap_none (f : Modul → String) (sg : Studiengang) (k : String)
    (h : ∀ x ∈ sg.get_all_module, f x ≠ k) :
    mapGet k (buildMap f sg) = none := by
  have hfold : ∀ (l : List Modul) (acc : List (String × String)),
      (∀ x ∈ l, f x ≠ k) → mapGet k acc = none →
      mapGet k (l.foldl (fun a m => mapSet (f m) m.id a) acc) = none := by
    intro l
    induction l with
    | nil => intro acc _ hacc; exact hacc
    | cons x xs ih =>
        intro acc hl hacc
        refine ih (mapSet (f x) x.id acc)
          (fun y hy => hl y (List.mem_cons_of_mem x hy)) ?_
        have hx : f x ≠ k := hl x (List.mem_cons_self x xs)
        simpa [mapGet, mapSet, List.find?_cons, hx] using hacc
  exact hfold sg.get_all_module [] h rfl

/-- Helper: overwriting a field with the value it already holds is the
identity. -/
theorem pl_set_modul_id_self (pl : Pruefungsleistung) (v : Option String)
    (h : pl.modul_id = v) : { pl with modul_id := v } = pl := by
  cases pl
  cases h
  rfl

/-- Helper: with a fresh target id, the in-place rewrite of `updateModul`
leaves every module of the program unchanged. -/
theorem updateModul_map_fresh (mods : List Modul) (mid : String) (f : Modul → Modul)
    (h : ∀ x ∈ mods, x.id ≠ mid) :
    mods.map (fun x => if x.id = mid then f x else x) = mods := by
  have hcong : ∀ x ∈ mods, (if x.id = mid then f x else x) = id x :=
    fun x hx => if_neg (h x hx)
  rw [List.map_congr_left hcong, List.map_id]

/-- Helper: with a fresh target id, `updateModul` leaves a semester list whose
modules all carry other ids unchanged. -/
theorem updateModul_sems_fresh (sems : List Semester) (mid : String)
    (f : Modul → Modul)
    (h : ∀ sem ∈ sems, ∀ x ∈ sem.module, x.id ≠ mid) :
    sems.map (fun sem =>
      { sem with module := sem.module.map (fun m => if m.id = mid then f m else m) })
      = sems := by
  have hcong : ∀ sem ∈ sems,
      (({ sem with
          module := sem.module.map (fun m => if m.id = mid then f m else m) })
        : Semester) = id sem := by
    intro sem hsem
    have hmod : sem.module.map (fun m => if m.id = mid then f m else m) = sem.module :=
      updateModul_map_fresh sem.module mid f (h sem hsem)
    rw [hmod]
    rfl
  rw [List.map_congr_left hcong, List.map_id]

/-- Helper: everything `attachPruefung` does to a state whose program just
auto-created the fresh module `mA` attached to semester 1. -/
theorem attachPruefung_autocreate (t : ImportState) (sg0 : Studiengang)
    (mA : Modul) (pl : Pruefungsleistung) (mid : String)
    (hmA : mA.id = mid) (hmApls : mA.pruefungsleistungen = [])
    (ht : t.studiengang = attachToSemester1 sg0 mA)
    (hplid : pl.modul_id = some mid)
    (hfresh : ∀ x ∈ sg0.get_all_module, x.id ≠ mid) :
    ((attachPruefung t pl (some mid)).studiengang.get_all_module).Perm
        (sg0.get_all_module ++ [{ mA with pruefungsleistungen := [pl] }]) ∧
    (∃ sem ∈ (attachPruefung t pl (some mid)).studiengang.semester,
        sem.nummer = 1 ∧ { mA with pruefungsleistungen := [pl] } ∈ sem.module) ∧
    (sg0.get_semester 1 = none →
      ∃ semNew,
        (attachPruefung t pl (some mid)).studiengang.semester
            = sg0.semester ++ [semNew] ∧
        semNew.nummer = 1 ∧
        semNew.module = [{ mA with pruefungsleistungen := [pl] }]) ∧
    (attachPruefung t pl (some mid)).student.pruefungsleistungen
      = t.student.pruefungsleistungen ++ [pl] := by
  have hgmA :
      (if mA.id = mid then
        { mA with pruefungsleistungen :=
            mA.pruefungsleistungen ++ [{ pl with modul_id := some mA.id }] }
      else mA) = { mA with pruefungsleistungen := [pl] } := by
    rw [if_pos hmA, hmApls, hmA, pl_set_modul_id_self pl (some mid) hplid]
    rfl
  have hsgU : (attachPruefung t pl (some mid)).studiengang
      = updateModul t.studiengang mid
          (fun m => { m with pruefungsleistungen :=
              m.pruefungsleistungen ++ [{ pl with modul_id := some m.id }] }) := by
    unfold attachPruefung
    by_cases hb : pl.bestanden <;> simp [hb]
  refine ⟨?_, ?_, ?_, ?_⟩
  · rw [hsgU, updateModul_get_all, ht]
    refine (List.Perm.map _ (attachToSemester1_perm sg0 mA)).trans ?_
    rw [List.map_append,
      updateModul_map_fresh sg0.get_all_module mid _ hfresh,
      List.map_cons, List.map_nil, hgmA]
  · obtain ⟨sem, hsem, hnum, hmem⟩ := attachToSemester1_mem sg0 mA
    rw [← ht] at hsem
    rw [hsgU]
    refine ⟨_, List.mem_map_of_mem _ hsem, hnum, ?_⟩
    rw [← hgmA]
    exact List.mem_map_of_mem _ hmem
  · intro hnone
    have hsplit := attachToSemester1_none sg0 mA hnone
    have hfresh' : ∀ sem ∈ sg0.semester, ∀ x ∈ sem.module, x.id ≠ mid := by
      intro sem hsem x hx
      apply hfresh
      rw [get_all_module_eq]
      exact List.mem_flatten.mpr ⟨sem.module, List.mem_map_of_mem _ hsem, hx⟩
    refine
      ⟨{ nummer := 1, startDatum := none, endDatum := none, recommendedECTS := 30,
         status := "geplant", aktiv := false,
         module := [{ mA with pruefungsleistungen := [pl] }] },
       ?_, rfl, rfl⟩
    rw [hsgU]
    unfold updateModul
    rw [ht, hsplit, List.map_append,
      updateModul_sems_fresh sg0.semester mid _ hfresh',
      List.map_cons, List.map_nil]
    simp only [Semester.add_modul, Semester.mkNew, List.nil_append,
      List.map_cons, List.map_nil, hgmA]
  · unfold attachPruefung
    by_cases hb : pl.bestanden <;> simp [hb, update_ects_pls]

/-- C8 (amended): for every row that passes validation and actually imports
(its `Grade`/`Weight` cells are usable), whose `Module_Name` is given but
matches no existing module by `Module_ID` or by name, and whose generated
internal id is fresh, the import step creates exactly one new module with
default `credit_value = 5` and target semester 1, attaches it to a semester
numbered 1 (appending a freshly created semester 1 when absent), and appends
exactly one new exam record — referencing the new module's internal id — to
the student's ledger and to the new module. -/
theorem claim_C8_autocreate_amended (env : ImportEnv) (s : ImportState)
    (row : CsvRow)
    (hmapID : s.by_modulID = buildMap Modul.modulID s.studiengang)
    (hmapName : s.by_name = buildMap Modul.modulName s.studiengang)
    (hval : validate_csv_row row = [])
    (hok : row_succeeds row = true)
    (hname : row.modul_name ≠ "")
    (hid : row.modul_id = "" ∨
      ∀ x ∈ s.studiengang.get_all_module, x.modulID ≠ row.modul_id)
    (hnm : ∀ x ∈ s.studiengang.get_all_module, x.modulName ≠ row.modul_name)
    (hfresh : ∀ x ∈ s.studiengang.get_all_module, x.id ≠ env.uuid s.ctr) :
    ∃ modNew plNew,
      modNew.id = env.uuid s.ctr ∧
      modNew.ects = 5 ∧
      modNew.semesterZuordnung = 1 ∧
      modNew.modulName = row.modul_name ∧
      ((process_row env s row).1.studiengang.get_all_module).Perm
        (s.studiengang.get_all_module ++ [modNew]) ∧
      (∃ sem ∈ (process_row env s row).1.studiengang.semester,
          sem.nummer = 1 ∧ modNew ∈ sem.module) ∧
      (s.studiengang.get_semester 1 = none →
        ∃ semNew,
          (process_row env s row).1.studiengang.semester
              = s.studiengang.semester ++ [semNew] ∧
          semNew.nummer = 1 ∧ semNew.module = [modNew]) ∧
      (process_row env s row).1.student.pruefungsleistungen
        = s.student.pruefungsleistungen ++ [plNew] ∧
      plNew.modul_id = some modNew.id ∧
      modNew.pruefungsleistungen = [plNew] := by
  have hgetID : ¬(row.modul_id ≠ "" ∧ (mapGet row.modul_id s.by_modulID).isSome) := by
    rcases hid with h | h
    · rintro ⟨hne, _⟩
      exact hne h
    · rintro ⟨_, hsome⟩
      rw [hmapID,
        mapGet_buildMap_none Modul.modulID s.studiengang row.modul_id h] at hsome
      simp at hsome
  have hgetName : ¬(row.modul_name ≠ "" ∧ (mapGet row.modul_name s.by_name).isSome) := by
    rintro ⟨_, hsome⟩
    rw [hmapName,
      mapGet_buildMap_none Modul.modulName s.studiengang row.modul_name hnm] at hsome
    simp at hsome
  have hres : resolveModul env s row
      = (autoResolvedState env s row, some (env.uuid s.ctr)) := by
    unfold resolveModul autoResolvedState
    rw [if_neg hgetID, if_neg hgetName, if_pos hname]
  have hpr : ∃ pl : Pruefungsleistung,
      (process_row env s row).1
          = attachPruefung
              { autoResolvedState env s row with
                  ctr := (autoResolvedState env s row).ctr + 1 }
              pl (some (env.uuid s.ctr)) ∧
      pl.modul_id = some (env.uuid s.ctr) := by
    unfold process_row
    rw [if_neg (show ¬ validate_csv_row row ≠ [] by simp [hval])]
    rw [hres]
    cases hn : row.note with
    | missing => exact ⟨_, rfl, rfl⟩
    | invalid =>
        exfalso
        simp [validate_csv_row, hn] at hval
    | valid v =>
        cases hgw : row.gewichtung with
        | missing =>
            simp only [GewVal.toFloat]
            exact ⟨_, rfl, rfl⟩
        | empty =>
            exfalso
            simp [row_succeeds, hval, hn, hgw] at hok
        | invalid =>
            exfalso
            simp [validate_csv_row, hgw] at hval
        | valid g =>
            simp only [GewVal.toFloat]
            exact ⟨_, rfl, rfl⟩
  obtain ⟨pl, hstate, hplid⟩ := hpr
  obtain ⟨hPerm, hMem, hNone, hLedger⟩ :=
    attachPruefung_autocreate
      { autoResolvedState env s row with
          ctr := (autoResolvedState env s row).ctr + 1 }
      s.studiengang (autoNewModul env s row) pl (env.uuid s.ctr)
      rfl rfl rfl hplid hfresh
  refine ⟨{ autoNewModul env s row with pruefungsleistungen := [pl] }, pl,
    rfl, rfl, rfl, rfl, ?_, ?_, ?_, ?_, hplid, rfl⟩
  · rw [hstate]
    exact hPerm
  · rw [hstate]
    exact hMem
  · intro h
    rw [hstate]
    exact hNone h
  · rw [hstate]
    exact hLedger

/-- Counterexample to C8 as stated: this row is valid under the row-validation
contract and matches no existing module, and the import step does create the
new module — but it adds **no** exam record (the ledger stays empty), because
the empty weight cell makes `float` raise after the module was auto-created. -/
theorem claim_C8_counterexample :
    validate_csv_row fixTrapRow = [] ∧
    fixTrapRow.modul_name ≠ "" ∧
    (initImportState fixStudent fixSgEmpty 0).studiengang.get_all_module = [] ∧
    ((process_row fixEnv (initImportState fixStudent fixSgEmpty 0) fixTrapRow
      ).1.studiengang.get_all_module).length = 1 ∧
    (process_row fixEnv (initImportState fixStudent fixSgEmpty 0) fixTrapRow
      ).1.student.pruefungsleistungen = [] := by
  decide

/-- Witness for the amended C8 at concrete inputs. -/
theorem claim_C8_autocreate_amended_witness :
    ∃ modNew plNew,
      modNew.id = fixEnv.uuid (initImportState fixStudent fixSgEmpty 0).ctr ∧
      modNew.ects = 5 ∧
      modNew.semesterZuordnung = 1 ∧
      modNew.modulName = fixRowNew.modul_name ∧
      ((process_row fixEnv (initImportState fixStudent fixSgEmpty 0) fixRowNew
        ).1.studiengang.get_all_module).Perm
        ((initImportState fixStudent fixSgEmpty 0).studiengang.get_all_module
          ++ [modNew]) ∧
      (∃ sem ∈ (process_row fixEnv (initImportState fixStudent fixSgEmpty 0)
            fixRowNew).1.studiengang.semester,
          sem.nummer = 1 ∧ modNew ∈ sem.module) ∧
      ((initImportState fixStudent fixSgEmpty 0).studiengang.get_semester 1 = none →
        ∃ semNew,
          (process_row fixEnv (initImportState fixStudent fixSgEmpty 0) fixRowNew
            ).1.studiengang.semester
              = (initImportState fixStudent fixSgEmpty 0).studiengang.semester
                ++ [semNew] ∧
          semNew.nummer = 1 ∧ semNew.module = [modNew]) ∧
      (process_row fixEnv (initImportState fixStudent fixSgEmpty 0) fixRowNew
        ).1.student.pruefungsleistungen
          = (initImportState fixStudent fixSgEmpty 0).student.pruefungsleistungen
            ++ [plNew] ∧
      plNew.modul_id = some modNew.id ∧
      modNew.pruefungsleistungen = [plNew] :=
  claim_C8_autocreate_amended fixEnv (initImportState fixStudent fixSgEmpty 0)
    fixRowNew rfl rfl (by decide) (by decide) (by decide) (Or.inl rfl)
    (by decide) (by decide)
